import Mathlib

/-!
Verification of the Smart-Hire matching pipeline.

Shallow embedding of `resume_parser.py`, `job_parser.py`, `codes.py`
(class `JobMatcher`) and `embedding_manager.py` (class `EmbeddingManager`).
Python strings are modelled as lists of characters, Python floats as
rational numbers, and Python exceptions as `Except Unit`.  External
components (the SentenceTransformer encoder, the HuggingFace embedding
model and the FAISS vectorstore) are modelled as fallible oracles passed
in as parameters.
-/

namespace SmartHire

abbrev Text := List Char

/-- Python `str.lower()`. -/
def lower (t : Text) : Text := t.map Char.toLower

/-- `headMatch pat t`: `pat` occurs at the very start of `t`. -/
def headMatch : Text → Text → Bool
  | [], _ => true
  | _ :: _, [] => false
  | p :: ps, c :: cs => p = c && headMatch ps cs

/-- Python substring containment `pat in t` (an empty pattern is contained
in every string). -/
def inText (pat : Text) : Text → Bool
  | [] => pat.isEmpty
  | c :: cs => headMatch pat (c :: cs) || inText pat cs

/-- `COMMON_SKILLS` from resume_parser.py / job_parser.py (identical lists). -/
def COMMON_SKILLS : List Text :=
  ["python".toList, "machine learning".toList, "deep learning".toList,
   "pytorch".toList, "tensorflow".toList, "nlp".toList, "data science".toList]

/-- `COMMON_CERTS` from resume_parser.py / job_parser.py. -/
def COMMON_CERTS : List Text :=
  ["aws certified".toList, "azure".toList, "gcp".toList,
   "tensorflow certification".toList]

/-- `DEGREES` from resume_parser.py / job_parser.py. -/
def DEGREES : List Text :=
  ["bachelor".toList, "master".toList, "phd".toList,
   "b.tech".toList, "m.tech".toList]

/-- Does the text start with the four letters `year`?  (The trailing
`s?` of the regex is irrelevant for whether a match exists.) -/
def startsWithYear : Text → Bool
  | 'y' :: 'e' :: 'a' :: 'r' :: _ => true
  | _ => false

/-- One-position match of the regex `(\\d+)\\+?\\s+years?` exactly as it
appears inside a *raw* Python string literal in resume_parser.py and
job_parser.py.  Because the string is raw, every doubled backslash is two
characters, so the regex atoms are: a literal backslash, `d+` (captured
together with the backslash in group 1), one-or-more literal backslashes
(lazy `\\+?`), one further literal backslash, `s+`, then `year` and an
optional `s`.  Adjacent atoms use disjoint characters, so greedy/lazy
backtracking reduces to maximal runs: a match starting here requires a
backslash, a run of at least one `d`, a run of at least two backslashes,
a run of at least one `s`, then `year`.  Returns group 1 (the leading
backslash plus the run of `d`s) on a match. -/
def yearsPatternAt (t : Text) : Option Text :=
  match t with
  | '\\' :: rest =>
    let ds := rest.takeWhile (fun c => c = 'd')
    let r1 := rest.dropWhile (fun c => c = 'd')
    let bs := r1.takeWhile (fun c => c = '\\')
    let r2 := r1.dropWhile (fun c => c = '\\')
    let r3 := (r2.dropWhile (fun c => c = 's'))
    if 1 ≤ ds.length ∧ 2 ≤ bs.length ∧
        1 ≤ (r2.takeWhile (fun c => c = 's')).length ∧ startsWithYear r3
    then some ('\\' :: ds)
    else none
  | _ => none

/-- `re.search` for that pattern: first match position, left to right;
returns the captured group 1, or `none` when the text has no match. -/
def yearsSearch : Text → Option Text
  | [] => none
  | c :: cs =>
    match yearsPatternAt (c :: cs) with
    | some g => some g
    | none => yearsSearch cs

/-- Python `float()` applied to the regex capture `match.group(1)`.
A run of decimal digits converts to its numeric value; anything else
(in particular every group this regex can produce, which always starts
with a backslash) raises `ValueError`, modelled as `.error ()`. -/
def pyFloat (g : Text) : Except Unit Rat :=
  if g ≠ [] ∧ g.all (fun c => c.isDigit) then
    .ok (((g.foldl (fun n c => 10 * n + (c.toNat - '0'.toNat)) 0 : Nat) : Rat))
  else .error ()

/-- The experience-extraction lines shared by `parse_resume` and
`parse_job_description`: `float(match.group(1)) if match else 0.0`. -/
def extract_years (t : Text) : Except Unit Rat :=
  match yearsSearch t with
  | some g => pyFloat g
  | none => .ok 0

/-- First degree keyword contained in the (lowercased) text, else `''`. -/
def findEducation (t : Text) : Text :=
  match DEGREES.find? (fun d => inText d t) with
  | some d => d
  | none => []

structure ResumeData where
  skills : List Text
  years_experience : Rat
  education : Text
  certifications : List Text
deriving DecidableEq

structure JobData where
  skills : List Text
  required_experience : Rat
  education : Text
  certifications : List Text
deriving DecidableEq

/-- `parse_resume` from resume_parser.py.  The `float()` call on the
capture group can raise `ValueError`, hence the `Except`. -/
def parse_resume (resume_text : Text) : Except Unit ResumeData :=
  let t := lower resume_text
  match extract_years t with
  | .error e => .error e
  | .ok years =>
    .ok { skills := COMMON_SKILLS.filter (fun s => inText s t)
          years_experience := years
          education := findEducation t
          certifications := COMMON_CERTS.filter (fun c => inText c t) }

/-- `parse_job_description` from job_parser.py. -/
def parse_job_description (job_text : Text) : Except Unit JobData :=
  let t := lower job_text
  match extract_years t with
  | .error e => .error e
  | .ok years =>
    .ok { skills := COMMON_SKILLS.filter (fun s => inText s t)
          required_experience := years
          education := findEducation t
          certifications := COMMON_CERTS.filter (fun c => inText c t) }

/-- `Config.TOP_K_CANDIDATES` from config.py. -/
def Config_TOP_K_CANDIDATES : Nat := 5

/-- `JobMatcher.skill_match_score` (codes.py): the number of distinct
skills shared by `set(resume_skills)` and `set(job_skills)`, divided by
`len(job_skills)`; `0.0` when the job skill list is empty (Python
truthiness of the list). -/
def skill_match_score (resume_skills job_skills : List Text) : Rat :=
  if job_skills.isEmpty then 0
  else ((resume_skills.toFinset ∩ job_skills.toFinset).card : Rat) /
    (job_skills.length : Rat)

/-- `JobMatcher.experience_score` (codes.py):
`min(actual_years / required_years, 1.0) if required_years else 1.0`
(a float is falsy exactly when it is zero). -/
def experience_score (actual_years required_years : Rat) : Rat :=
  if required_years = 0 then 1 else min (actual_years / required_years) 1

/-- The `edu_score` line of `JobMatcher.education_cert_score`:
`0.5 if job_edu.lower() in resume_edu.lower() else 0.0` (substring test). -/
def eduComponent (resume_edu job_edu : Text) : Rat :=
  if inText (lower job_edu) (lower resume_edu) then 1/2 else 0

/-- The `cert_score` line of `JobMatcher.education_cert_score`:
`0.5 if any(cert.lower() in [r.lower() for r in resume_certs] for cert in job_certs) else 0.0`
(list membership, not substring). -/
def certComponent (resume_certs job_certs : List Text) : Rat :=
  if job_certs.any (fun cert => lower cert ∈ resume_certs.map lower)
  then 1/2 else 0

/-- `JobMatcher.education_cert_score` (codes.py). -/
def education_cert_score (resume_edu job_edu : Text)
    (resume_certs job_certs : List Text) : Rat :=
  eduComponent resume_edu job_edu + certComponent resume_certs job_certs

/-- `JobMatcher.semantic_similarity` (codes.py).  The SentenceTransformer
encoder and `util.cos_sim` are external; `semModel` stands for the body of
the `try` block and may fail.  The `except` arm returns `0.0`. -/
def semantic_similarity (semModel : Text → Text → Except Unit Rat)
    (resume_text job_text : Text) : Rat :=
  match semModel resume_text job_text with
  | .ok v => v
  | .error _ => 0

/-- `JobMatcher.final_score` (codes.py).  In the source `video_score` and
`coding_score` default to `0.0` and do not occur in the returned
expression. -/
def final_score (skill_score experience_score edu_score semantic_score
    video_score coding_score : Rat) : Rat :=
  3/10 * skill_score + 2/10 * experience_score +
    1/10 * edu_score + 4/10 * semantic_score

/-- Stable insertion step for Python `list.sort(key=lambda x: x[1],
reverse=True)`: an element is placed before the first element of strictly
smaller score, after equal scores already present to its left in the
original list. -/
def insertByScoreDesc (x : Text × Rat) :
    List (Text × Rat) → List (Text × Rat)
  | [] => [x]
  | y :: ys => if y.2 ≤ x.2 then y :: insertByScoreDesc x ys
    else x :: y :: ys

/-- Python's stable sort by score, descending
(`scores.sort(key=lambda x: x[1], reverse=True)`). -/
def sortByScoreDesc : List (Text × Rat) → List (Text × Rat)
  | [] => []
  | x :: xs => insertByScoreDesc x (sortByScoreDesc xs)

/-- The per-candidate loop of `JobMatcher.match_candidates_to_job`:
parse each resume (an exception aborts the whole call), compute the four
component scores and the final score, and keep the pair
`(resume_text, final)` only when the candidate passes the eligibility
gate `skill_score >= SKILL_THRESHOLD and experience_score >=
EXPERIENCE_THRESHOLD`.  `skillThreshold`/`expThreshold` are modelled from
the spec: `Config.SKILL_THRESHOLD` and `Config.EXPERIENCE_THRESHOLD` are
described as externally configured constants and config.py does not
assign them, so they are taken as parameters. -/
def gatherScores (semModel : Text → Text → Except Unit Rat)
    (skillThreshold expThreshold : Rat) (jd : JobData)
    (job_description : Text) :
    List Text → Except Unit (List (Text × Rat))
  | [] => .ok []
  | resume_text :: rest =>
    match parse_resume resume_text with
    | .error e => .error e
    | .ok rd =>
      let skill := skill_match_score rd.skills jd.skills
      let exp := experience_score rd.years_experience jd.required_experience
      let edu := education_cert_score rd.education jd.education
        rd.certifications jd.certifications
      let sem := semantic_similarity semModel resume_text job_description
      let final := final_score skill exp edu sem 0 0
      match gatherScores semModel skillThreshold expThreshold jd
          job_description rest with
      | .error e => .error e
      | .ok tail =>
        .ok (if skillThreshold ≤ skill ∧ expThreshold ≤ exp
          then (resume_text, final) :: tail else tail)

/-- `JobMatcher.match_candidates_to_job` (codes.py).
`top_k = top_k or Config.TOP_K_CANDIDATES` under Python truthiness:
`None` or `0` fall back to the configured default.  The gated score list
is sorted by descending final score and truncated to `top_k`. -/
def match_candidates_to_job (semModel : Text → Text → Except Unit Rat)
    (skillThreshold expThreshold : Rat) (job_description : Text)
    (candidate_texts : List Text) (top_k : Option Nat) :
    Except Unit (List (Text × Rat)) :=
  let k := match top_k with
    | none => Config_TOP_K_CANDIDATES
    | some n => if n = 0 then Config_TOP_K_CANDIDATES else n
  match parse_job_description job_description with
  | .error e => .error e
  | .ok jd =>
    match gatherScores semModel skillThreshold expThreshold jd
        job_description candidate_texts with
    | .error e => .error e
    | .ok scores => .ok ((sortByScoreDesc scores).take k)

/-- A retrieved document together with its similarity score.  The FAISS
store is external, so its result is modelled with the similarity that
orders it. -/
abbrev ScoredDoc := Text × Rat

/-- `EmbeddingManager.similarity_search` (embedding_manager.py): a `None`
vectorstore yields `[]`; otherwise the external store is queried inside
`try`, and any exception yields `[]`.  The store is modelled as a fallible
oracle `Text → Int → Except Unit (List ScoredDoc)`. -/
def similarity_search
    (store : Option (Text → Int → Except Unit (List ScoredDoc)))
    (query : Text) (k : Int) : List ScoredDoc :=
  match store with
  | none => []
  | some f =>
    match f query k with
    | .ok docs => docs
    | .error _ => []

/-- `EmbeddingManager.embed_text` (embedding_manager.py): returns
`self.embeddings.embed_query(text)` and, on any exception from the
external model, logs and returns `[]`.  The model is the fallible oracle
`embedQuery`. -/
def embed_text (embedQuery : Text → Except Unit (List Rat))
    (text : Text) : List Rat :=
  match embedQuery text with
  | .ok v => v
  | .error _ => []

/-- A concrete store used to exercise `similarity_search`: fails on
non-positive `k`, otherwise returns a single scored document. -/
def demoStore (q : Text) (k : Int) : Except Unit (List ScoredDoc) :=
  if k ≤ 0 then .error () else .ok [("doc".toList, 1)]

theorem inText_nil (l : Text) : inText [] l = true := by
  cases l <;> simp [inText, headMatch]

theorem mem_insertByScoreDesc (x y : Text × Rat) :
    ∀ l, y ∈ insertByScoreDesc x l ↔ y = x ∨ y ∈ l := by
  intro l
  induction l with
  | nil => simp [insertByScoreDesc]
  | cons a as ih =>
    simp only [insertByScoreDesc]
    by_cases h : a.2 ≤ x.2
    · rw [if_pos h]
      simp only [List.mem_cons, ih]
      tauto
    · rw [if_neg h]
      simp only [List.mem_cons]

theorem mem_sortByScoreDesc (y : Text × Rat) :
    ∀ l, y ∈ sortByScoreDesc l ↔ y ∈ l := by
  intro l
  induction l with
  | nil => simp [sortByScoreDesc]
  | cons a as ih =>
    simp only [sortByScoreDesc, mem_insertByScoreDesc, ih, List.mem_cons]

theorem gatherScores_mem (semModel : Text → Text → Except Unit Rat)
    (skillThreshold expThreshold : Rat) (jd : JobData) (job : Text) :
    ∀ (pool : List Text) (l : List (Text × Rat)),
      gatherScores semModel skillThreshold expThreshold jd job pool = .ok l →
      ∀ t s, (t, s) ∈ l →
        ∃ rd, parse_resume t = .ok rd ∧
          skillThreshold ≤ skill_match_score rd.skills jd.skills ∧
          expThreshold ≤ experience_score rd.years_experience
            jd.required_experience := by
  intro pool
  induction pool with
  | nil =>
    intro l h t s hm
    simp only [gatherScores] at h
    cases h
    simp at hm
  | cons head rest ih =>
    intro l h t s hm
    simp only [gatherScores] at h
    cases hr : parse_resume head with
    | error e => rw [hr] at h; cases h
    | ok rd =>
      rw [hr] at h
      cases hg : gatherScores semModel skillThreshold expThreshold jd job
          rest with
      | error e => rw [hg] at h; cases h
      | ok tail =>
        rw [hg] at h
        injection h with h
        by_cases hcond :
            skillThreshold ≤ skill_match_score rd.skills jd.skills ∧
            expThreshold ≤ experience_score rd.years_experience
              jd.required_experience
        · rw [if_pos hcond] at h
          subst h
          rcases List.mem_cons.mp hm with heq | hmem
          · rw [Prod.mk.injEq] at heq
            obtain ⟨ht, hs⟩ := heq
            subst ht
            exact ⟨rd, hr, hcond⟩
          · exact ih tail hg t s hmem
        · rw [if_neg hcond] at h
          subst h
          exact ih tail hg t s hm

/-- C1: whenever `match_candidates_to_job` returns a result list, every
candidate appearing in it passes the eligibility gate: its
`skill_match_score` against the parsed job is at least the skill
threshold and its `experience_score` at least the experience threshold.
Consequently a candidate below either threshold never appears in the
output, regardless of its final score: gated-out candidates are dropped,
not ranked at the bottom. -/
theorem match_candidates_gate (semModel : Text → Text → Except Unit Rat)
    (skillThreshold expThreshold : Rat) (job : Text) (pool : List Text)
    (top_k : Option Nat) (res : List (Text × Rat))
    (hok : match_candidates_to_job semModel skillThreshold expThreshold job
      pool top_k = .ok res)
    (t : Text) (s : Rat) (hmem : (t, s) ∈ res) :
    ∃ jd rd, parse_job_description job = .ok jd ∧ parse_resume t = .ok rd ∧
      skillThreshold ≤ skill_match_score rd.skills jd.skills ∧
      expThreshold ≤ experience_score rd.years_experience
        jd.required_experience := by
  cases hpj : parse_job_description job with
  | error e =>
    simp only [match_candidates_to_job, hpj] at hok
    cases hok
  | ok jd =>
    cases hg : gatherScores semModel skillThreshold expThreshold jd job
        pool with
    | error e =>
      simp only [match_candidates_to_job, hpj, hg] at hok
      cases hok
    | ok scores =>
      simp only [match_candidates_to_job, hpj, hg, Except.ok.injEq] at hok
      subst hok
      have hmem2 : (t, s) ∈ sortByScoreDesc scores :=
        List.take_subset _ _ hmem
      have hmem3 : (t, s) ∈ scores :=
        (mem_sortByScoreDesc (t, s) scores).mp hmem2
      obtain ⟨rd, hr, h1, h2⟩ := gatherScores_mem semModel skillThreshold
        expThreshold jd job pool scores hg t s hmem3
      exact ⟨jd, rd, rfl, hr, h1, h2⟩

theorem match_candidates_gate_witness :
    ∃ jd rd,
      parse_job_description "python".toList = .ok jd ∧
      parse_resume "python".toList = .ok rd ∧
      (0 : Rat) ≤ skill_match_score rd.skills jd.skills ∧
      (0 : Rat) ≤ experience_score rd.years_experience
        jd.required_experience :=
  match_candidates_gate (fun _ _ => .ok 0) 0 0 "python".toList
    ["python".toList] none [("python".toList, 11/20)]
    (by
      have hrd : parse_resume "python".toList =
          .ok ⟨["python".toList], 0, [], []⟩ := rfl
      have hjd : parse_job_description "python".toList =
          .ok ⟨["python".toList], 0, [], []⟩ := rfl
      have hskill : skill_match_score ["python".toList] ["python".toList]
          = 1 := by
        have hc : (["python".toList].toFinset ∩
            ["python".toList].toFinset).card = 1 := rfl
        rw [skill_match_score, if_neg (by decide), hc]
        norm_num
      have hexp : experience_score 0 0 = 1 := by
        rw [experience_score, if_pos rfl]
      have hedu : education_cert_score [] [] [] [] = 1/2 := by
        rw [education_cert_score, eduComponent, certComponent,
          if_pos (by decide), if_neg (by decide)]
        norm_num
      have hsem : semantic_similarity (fun _ _ => .ok 0) "python".toList
          "python".toList = 0 := rfl
      have hfin : final_score 1 1 (1/2) 0 0 0 = 11/20 := by
        rw [final_score]; norm_num
      rw [match_candidates_to_job, hjd]
      simp only [gatherScores, hrd, hskill, hexp, hedu, hsem, hfin]
      rw [if_pos ⟨by norm_num, by norm_num⟩]
      rfl)
    "python".toList (11/20) (by simp)

/-- C2: the experience extraction shared by `parse_resume` and
`parse_job_description` is built on the raw-string regex
`(\\d+)\\+?\\s+years?`, whose doubled backslashes denote literal
backslashes; it therefore never matches a plain `5 years` phrase, and
both parsers fall back to `0.0` on a text that plainly states five years
of experience — not to `5.0` as the specification asserts. -/
theorem parse_five_years_yields_zero :
    parse_resume
        "software engineer with 5 years of experience in python".toList =
      .ok { skills := ["python".toList], years_experience := 0,
            education := [], certifications := [] } ∧
    parse_job_description "requires at least 5 years of python".toList =
      .ok { skills := ["python".toList], required_experience := 0,
            education := [], certifications := [] } :=
  ⟨rfl, rfl⟩

/-- C3: `final_score` is the affine combination
`0.3·skill + 0.2·experience + 0.1·edu + 0.4·semantic`; it maps
`(1,1,1,1)` to `1`, `(0,0,0,0)` to `0`, and sends components in `[0,1]`
to a result in `[0,1]`. -/
theorem final_score_affine (s e d m v c : Rat) :
    final_score s e d m v c = 3/10 * s + 2/10 * e + 1/10 * d + 4/10 * m ∧
    final_score 1 1 1 1 v c = 1 ∧
    final_score 0 0 0 0 v c = 0 ∧
    (0 ≤ s → s ≤ 1 → 0 ≤ e → e ≤ 1 → 0 ≤ d → d ≤ 1 → 0 ≤ m → m ≤ 1 →
      0 ≤ final_score s e d m v c ∧ final_score s e d m v c ≤ 1) := by
  refine ⟨rfl, by rw [final_score]; norm_num,
    by rw [final_score]; norm_num, ?_⟩
  intro hs1 hs2 he1 he2 hd1 hd2 hm1 hm2
  rw [final_score]
  constructor <;> nlinarith

theorem final_score_affine_witness :
    0 ≤ final_score (1/2) (1/2) (1/2) (1/2) 7 9 ∧
      final_score (1/2) (1/2) (1/2) (1/2) 7 9 ≤ 1 :=
  (final_score_affine (1/2) (1/2) (1/2) (1/2) 7 9).2.2.2
    (by norm_num) (by norm_num) (by norm_num) (by norm_num)
    (by norm_num) (by norm_num) (by norm_num) (by norm_num)

/-- C4: for a duplicate-free job skill list `J`, `skill_match_score C J`
is the cardinality of the set intersection of the two skill sets divided
by the cardinality of the job skill set when `J` is non-empty, and `0`
when `J` is empty; in particular `C = {python}`, `J = {python, aws}`
yields `1/2`. -/
theorem skill_match_score_spec (C J : List Text) (hJ : J.Nodup) :
    (J ≠ [] → skill_match_score C J =
      ((C.toFinset ∩ J.toFinset).card : Rat) / (J.toFinset.card : Rat)) ∧
    (J = [] → skill_match_score C J = 0) ∧
    skill_match_score ["python".toList] ["python".toList, "aws".toList]
      = 1/2 := by
  refine ⟨?_, ?_, ?_⟩
  · intro h
    rw [skill_match_score, if_neg (by simp [h]),
      List.toFinset_card_of_nodup hJ]
  · intro h
    subst h
    rfl
  · have hc : (["python".toList].toFinset ∩
        ["python".toList, "aws".toList].toFinset).card = 1 := rfl
    rw [skill_match_score, if_neg (by decide), hc]
    norm_num

theorem skill_match_score_spec_witness :
    skill_match_score ["python".toList] ["python".toList, "aws".toList] =
      (((["python".toList] : List Text).toFinset ∩
        (["python".toList, "aws".toList] : List Text).toFinset).card : Rat) /
        ((["python".toList, "aws".toList] : List Text).toFinset.card : Rat) :=
  (skill_match_score_spec ["python".toList]
    ["python".toList, "aws".toList] (by decide)).1 (by decide)

/-- C5: for any non-negative required experience, `experience_score` is
monotonically non-decreasing in the actual years, never exceeds `1`,
equals `min(actual/required, 1)` when the requirement is positive and is
constantly `1` when the requirement is `0`; moreover
`experience_score 10 3 = 1` and `experience_score 1 4 = 1/4`. -/
theorem experience_score_spec (r : Rat) (hr : 0 ≤ r) :
    (∀ a₁ a₂ : Rat, 0 ≤ a₁ → a₁ ≤ a₂ →
      experience_score a₁ r ≤ experience_score a₂ r) ∧
    (∀ a : Rat, experience_score a r ≤ 1) ∧
    (0 < r → ∀ a : Rat, experience_score a r = min (a / r) 1) ∧
    (r = 0 → ∀ a : Rat, experience_score a r = 1) ∧
    experience_score 10 3 = 1 ∧ experience_score 1 4 = 1/4 := by
  refine ⟨?_, ?_, ?_, ?_, ?_, ?_⟩
  · intro a₁ a₂ ha₁ h12
    by_cases h0 : r = 0
    · rw [experience_score, experience_score, if_pos h0, if_pos h0]
    · have hpos : 0 < r := lt_of_le_of_ne hr (Ne.symm h0)
      rw [experience_score, experience_score, if_neg h0, if_neg h0]
      gcongr
  · intro a
    by_cases h0 : r = 0
    · rw [experience_score, if_pos h0]
    · rw [experience_score, if_neg h0]
      exact min_le_right _ _
  · intro hpos a
    rw [experience_score, if_neg (ne_of_gt hpos)]
  · intro h0 a
    rw [experience_score, if_pos h0]
  · rw [experience_score, if_neg (by norm_num)]
    exact min_eq_right (by norm_num)
  · rw [experience_score, if_neg (by norm_num)]
    exact min_eq_left (by norm_num)

theorem experience_score_spec_witness :
    experience_score 10 3 = 1 ∧ experience_score 1 4 = 1/4 :=
  ⟨(experience_score_spec 3 (by norm_num)).2.2.2.2.1,
   (experience_score_spec 4 (by norm_num)).2.2.2.2.2⟩

/-- C6: evaluation of the code at a failing input.  The claim says the
batch method never propagates an exception; but on a candidate text
matched by the mis-escaped regex (a backslash, a `d`, two backslashes,
an `s`, then `year`) the capture group starts with a backslash, Python's
`float()` raises `ValueError` inside `parse_resume`, and
`match_candidates_to_job` propagates it instead of returning a ranking —
even though semantic-model failures themselves are caught and scored as
`0.0`. -/
theorem match_candidates_raises_on_backslash_text :
    match_candidates_to_job (fun _ _ => .ok 0) 0 0 "python".toList
      [['\\', 'd', '\\', '\\', 's', 'y', 'e', 'a', 'r']] none =
      .error () :=
  rfl

/-- C7: under the external FAISS contract — a successful query returns at
most `k` results sorted by non-increasing similarity, and a query with
`k ≤ 0` returns nothing or raises — `similarity_search` returns at most
`k` results sorted by non-increasing similarity, and returns the empty
list (never an error) whenever the index is absent or `k ≤ 0`. -/
theorem similarity_search_spec
    (store : Option (Text → Int → Except Unit (List ScoredDoc)))
    (query : Text) (k : Int)
    (hcontract : ∀ f, store = some f → ∀ r, f query k = .ok r →
      r.length ≤ k.toNat ∧ r.Pairwise (fun a b => b.2 ≤ a.2))
    (hsmall : ∀ f, store = some f → k ≤ 0 →
      f query k = .ok [] ∨ f query k = .error ()) :
    (similarity_search store query k).length ≤ k.toNat ∧
    (similarity_search store query k).Pairwise (fun a b => b.2 ≤ a.2) ∧
    (store = none → similarity_search store query k = []) ∧
    (k ≤ 0 → similarity_search store query k = []) := by
  cases store with
  | none => simp [similarity_search]
  | some f =>
    cases hf : f query k with
    | error e => simp [similarity_search, hf]
    | ok r =>
      obtain ⟨hlen, hsort⟩ := hcontract f rfl r hf
      refine ⟨?_, ?_, ?_, ?_⟩
      · simpa [similarity_search, hf] using hlen
      · simpa [similarity_search, hf] using hsort
      · intro habs; cases habs
      · intro hk
        rcases hsmall f rfl hk with hempty | herr
        · rw [hf] at hempty
          injection hempty with hempty
          simp [similarity_search, hf, hempty]
        · rw [hf] at herr
          cases herr

theorem similarity_search_spec_witness :
    (similarity_search (some demoStore) "q".toList 1).length ≤
      (1 : Int).toNat ∧
    (similarity_search (some demoStore) "q".toList 1).Pairwise
      (fun a b => b.2 ≤ a.2) ∧
    (some demoStore = none →
      similarity_search (some demoStore) "q".toList 1 = []) ∧
    ((1 : Int) ≤ 0 →
      similarity_search (some demoStore) "q".toList 1 = []) :=
  similarity_search_spec (some demoStore) "q".toList 1
    (by
      intro f hf r hr
      injection hf with hf
      subst hf
      have : demoStore "q".toList 1 = .ok [("doc".toList, 1)] := rfl
      rw [this] at hr
      injection hr with hr
      subst hr
      exact ⟨by decide, by simp⟩)
    (by
      intro f hf hk
      exact absurd hk (by decide))

/-- C8: `embed_text` never propagates a model exception: it is a total
function of the oracle's outcome that returns the model's vector on
success and the empty vector on any model error. -/
theorem embed_text_spec (embedQuery : Text → Except Unit (List Rat))
    (text : Text) :
    (∀ v, embedQuery text = .ok v → embed_text embedQuery text = v) ∧
    (embedQuery text = .error () → embed_text embedQuery text = []) := by
  constructor
  · intro v hv
    simp [embed_text, hv]
  · intro hv
    simp [embed_text, hv]

theorem embed_text_spec_witness :
    embed_text (fun _ => .ok [1, 2]) "x".toList = [1, 2] ∧
    embed_text (fun _ => .error ()) "x".toList = [] :=
  ⟨(embed_text_spec (fun _ => .ok [1, 2]) "x".toList).1 [1, 2] rfl,
   (embed_text_spec (fun _ => .error ()) "x".toList).2 rfl⟩

/-- C9: when the job text contains no degree keyword,
`parse_job_description` yields the empty education string, and because
the empty string is a substring of every string, `education_cert_score`
awards the `0.5` education component to every candidate: a job with no
stated education requirement scores education at `0.5`, not `0`. -/
theorem education_default_half (job_text : Text)
    (h : ∀ d ∈ DEGREES, inText d (lower job_text) = false) :
    ∀ jd, parse_job_description job_text = .ok jd →
      jd.education = [] ∧
      ∀ resume_edu resume_certs job_certs,
        education_cert_score resume_edu jd.education resume_certs
          job_certs = 1/2 + certComponent resume_certs job_certs := by
  intro jd hjd
  simp only [parse_job_description] at hjd
  cases hy : extract_years (lower job_text) with
  | error e => rw [hy] at hjd; cases hjd
  | ok years =>
    rw [hy] at hjd
    injection hjd with hjd
    have hedu : jd.education = [] := by
      rw [← hjd]
      show findEducation (lower job_text) = []
      rw [findEducation, List.find?_eq_none.mpr]
      intro d hd
      simp [h d hd]
    refine ⟨hedu, ?_⟩
    intro resume_edu resume_certs job_certs
    rw [hedu, education_cert_score, eduComponent]
    rw [if_pos (by simpa [lower] using inText_nil (lower resume_edu))]

theorem education_default_half_witness :
    education_cert_score "phd".toList
      (⟨[], 0, [], []⟩ : JobData).education [] [] =
      1/2 + certComponent [] [] :=
  (education_default_half "hiring engineer".toList (by decide)
    ⟨[], 0, [], []⟩ rfl).2 "phd".toList [] []

/-- C10: `final_score` is independent of its `video_score` and
`coding_score` parameters: any two assignments of the two extra inputs
give the same result. -/
theorem final_score_ignores_video_and_coding
    (s e d m v₁ c₁ v₂ c₂ : Rat) :
    final_score s e d m v₁ c₁ = final_score s e d m v₂ c₂ :=
  rfl

end SmartHire
